import Mathlib

/-!
Verification of the scheduled DNS traffic-generation engine
(`dns_traffic_generator.py`) against its natural-language specification.

The Python module is shallowly embedded: dictionaries with optional keys
become structures with `Option` fields, truthiness tests on `.get(...)`
become matches on those options, `datetime.timedelta` values become `Int`
seconds, and Python exceptions (the `TypeError` raised by `x in None`, the
`IndexError` of an out-of-range subscript) become the error side of
`Except`.  Randomness (`random.shuffle`, `random.uniform`, `random.randint`)
is made explicit: the shuffle is a function parameter, and `randint` takes
an explicit seed.
-/

deriving instance DecidableEq for Except

namespace DnsTrafficGenerator

/-- Python runtime errors that the embedded code can raise.
`typeError` models the `TypeError` raised by a membership test or iteration
over `None`/`False`; `indexError` models an out-of-range list subscript. -/
inductive PyError where
  | typeError
  | indexError
deriving DecidableEq, Repr

/-- The `schedule` sub-dictionary of the YAML config.  Each field models
`config['schedule'].get(key)`: `continuous` is the truthiness of the
`continuous` entry, and an `Option` field is `none` when the key is absent
(or, for the time fields, falsy). -/
structure Schedule where
  continuous : Bool
  days_of_week : Option (List String)
  start_time : Option Nat
  end_time : Option Nat
deriving DecidableEq, Repr

/-- The top-level config dictionary; `schedule = none` models
`'schedule' not in config.keys()`. -/
structure Config where
  schedule : Option Schedule
deriving DecidableEq, Repr

/-- The observable parts of `datetime.datetime.now()`: the weekday index
(`now.weekday()`, 0 = Monday) and the wall-clock time of day. -/
structure Now where
  weekday : Fin 7
  hour : Nat
  minute : Nat
  second : Nat
deriving DecidableEq, Repr

/-- `days_of_week = [ 'Mon', 'Tue', 'Wed', 'Thu', 'Fri', 'Sat', 'Sun' ]`
from the Python source. -/
def days_of_week_names : List String :=
  ["Mon", "Tue", "Wed", "Thu", "Fri", "Sat", "Sun"]

/-- `days_of_week[now.weekday()]`. -/
def weekday_name (i : Fin 7) : String :=
  days_of_week_names.get (Fin.cast (by decide) i)

/-- `convert_to_delta`: parse an `HHMM` time (here already as the number
`HH * 100 + MM`, matching the string slicing `stime[:-2]` / `stime[2:]` on a
four-digit string) into a `timedelta`, represented as seconds. -/
def convert_to_delta (stime : Nat) : Int :=
  ((stime / 100) * 3600 + (stime % 100) * 60 : Nat)

/-- The effective start time used by `scheduled` and `wait_for_schedule`:
`config['schedule'].get('start_time')` if truthy, else the `'0000'`
(midnight) default. -/
def effective_start (sch : Schedule) : Int :=
  match sch.start_time with
  | some s => convert_to_delta s
  | none => convert_to_delta 0

/-- The effective end time: `config['schedule'].get('end_time')` if truthy,
else the `'2359'` default. -/
def effective_end (sch : Schedule) : Int :=
  match sch.end_time with
  | some e => convert_to_delta e
  | none => convert_to_delta 2359

/-- `convert_to_delta(now.strftime('%H%M'))`: the current time of day at
minute granularity, as used inside `scheduled`. -/
def current_delta (now : Now) : Int :=
  convert_to_delta (now.hour * 100 + now.minute)

/-- `scheduled(config)`: decide whether traffic generation is currently
permitted.  Returns `Except.error .typeError` when the weekday membership
test `week_day in config['schedule'].get('days_of_week')` is evaluated with
the key absent (`in None` raises `TypeError` in Python). -/
def scheduled (config : Config) (now : Now) : Except PyError Bool :=
  match config.schedule with
  | none => Except.ok false
  | some sch =>
    if sch.continuous then
      Except.ok true
    else
      match sch.days_of_week with
      | none => Except.error PyError.typeError
      | some days =>
        if weekday_name now.weekday ∈ days then
          let start_time := effective_start sch
          let end_time := effective_end sch
          let current_time := current_delta now
          if start_time < current_time ∧ current_time < end_time then
            Except.ok true
          else
            Except.ok false
        else
          Except.ok false

/-- `calc_wait(ntime, stime, etime)` on `timedelta`s represented as seconds;
`day = timedelta(days=1)` is 86400 seconds. -/
def calc_wait (ntime stime etime : Int) : Int :=
  if ntime < stime then
    stime - ntime
  else if etime < ntime then
    86400 - ntime + stime
  else
    0

/-- The current time of day at second granularity
(`timedelta(hours=now.hour, minutes=now.minute, seconds=now.second)`), as
used inside `wait_for_schedule`. -/
def now_delta (now : Now) : Int :=
  (now.hour * 3600 + now.minute * 60 + now.second : Nat)

/-- `wait_for_schedule(config)`: returns the `status` flag together with the
duration slept (`none` when no sleep happens).  With a schedule present the
wait is computed first; the subsequent weekday membership test raises
`TypeError` when `days_of_week` is absent, before any sleep. -/
def wait_for_schedule (config : Config) (now : Now) :
    Except PyError (Bool × Option Int) :=
  match config.schedule with
  | none => Except.ok (false, none)
  | some sch =>
    let start_delta := effective_start sch
    let end_delta := effective_end sch
    let wait := calc_wait (now_delta now) start_delta end_delta
    match sch.days_of_week with
    | none => Except.error PyError.typeError
    | some _days => Except.ok (true, some wait)

/-- One corpus entry `{"query": fqdn, "qtype": query type}`. -/
structure Query where
  query : String
  qtype : String
deriving DecidableEq, Repr

/-- Failure modes of the DNS resolution collaborator
(`dns.resolver.resolve`): timeout, NXDOMAIN, SERVFAIL, or anything else —
the bare `except` in `dns_query` treats them all alike. -/
inductive ResErr where
  | timeout
  | nxdomain
  | servfail
  | other
deriving DecidableEq, Repr

/-- The resolution collaborator: given a name and record type, either a list
of answer records or a resolution error. -/
def Resolver : Type :=
  String → String → Except ResErr (List String)

/-- `dns_query(query, qtype)`: `status = True` when `resolve` returns
answers (iterated only for debug logging), and the blanket `except` turns
every resolver exception into `status = False`. -/
def dns_query (resolve : Resolver) (query qtype : String) : Bool :=
  match resolve query qtype with
  | Except.ok _ => true
  | Except.error _ => false

/-- The `for query in qlist` loop body of `generate_queries`: walks the
(already shuffled) list front to back, counting `(successful, failed)`, and
records the query attempted at each iteration (the second component). -/
def dispatch_loop (resolve : Resolver) : List Query → (Nat × Nat) × List Query
  | [] => ((0, 0), [])
  | q :: rest =>
    let hit := dns_query resolve q.query q.qtype
    let r := dispatch_loop resolve rest
    (if hit then (r.1.1 + 1, r.1.2) else (r.1.1, r.1.2 + 1), q :: r.2)

/-- `generate_queries(qlist, rtime)`: `random.shuffle(qlist)` is modelled by
the explicit `shuffle` parameter; the per-query `time.sleep(random.uniform(0,
rtime))` pacing does not affect the counts and is elided.  Returns
`(successful, failed)`. -/
def generate_queries (resolve : Resolver) (shuffle : List Query → List Query)
    (qlist : List Query) : Nat × Nat :=
  (dispatch_loop resolve (shuffle qlist)).1

/-- The hard-coded fallback corpus of `build_queries` ("Gen Test query"). -/
def demo_queries : List Query :=
  [⟨"www.google.com", "a"⟩, ⟨"www.infoblox.com", "a"⟩,
   ⟨"failme.infoblox.com", "a"⟩, ⟨"csp.infoblox.com", "a"⟩]

/-- Python's `str.split()` with no argument: split on whitespace runs,
dropping empty tokens (which also absorbs the preceding `rstrip`). -/
def pysplit (s : String) : List String :=
  (s.split Char.isWhitespace).filter (fun t => t ≠ "")

/-- The filesystem as seen by `open_file`: `none` when the file is absent or
unreadable (the Python function then returns `False` instead of a handle),
`some lines` when it opens. -/
def open_file (fs : String → Option (List String)) (filename : String) :
    Option (List String) :=
  fs filename

/-- `'query:' in line` — Python substring containment. -/
def contains_sub (line pat : String) : Bool :=
  2 ≤ (line.splitOn pat).length

/-- The `bind` branch of `build_queries`: for each line containing
`query:`, find the token `query:` (`q.index` raising `ValueError` is caught
and skips the line) and take the two following tokens; a missing following
token is an uncaught `IndexError`. -/
def parse_bind : List String → Except PyError (List Query)
  | [] => Except.ok []
  | line :: rest =>
    if contains_sub line "query:" then
      let q := pysplit line
      match q.indexOf? "query:" with
      | none => parse_bind rest
      | some i =>
        match q.drop (i + 1) with
        | a :: b :: _ =>
          match parse_bind rest with
          | Except.ok qs => Except.ok (⟨a, b⟩ :: qs)
          | Except.error e => Except.error e
        | _ => Except.error PyError.indexError
    else
      parse_bind rest

/-- The `queryperf` branch of `build_queries`: keep lines whose whitespace
split has exactly two tokens. -/
def parse_queryperf (lines : List String) : List Query :=
  lines.foldl
    (fun acc line =>
      match pysplit line with
      | [a, b] => acc ++ [⟨a, b⟩]
      | _ => acc)
    []

/-- `build_queries(filename, format)`.  With a truthy filename and a known
format it calls `open_file` and iterates the result: when `open_file`
returned `False` (file absent/unreadable), `for line in False` raises
`TypeError`.  Only a falsy filename or unknown format reaches the fallback
demo corpus. -/
def build_queries (fs : String → Option (List String)) (filename : String)
    (format : String) : Except PyError (List Query) :=
  if filename ≠ "" ∧ (format = "queryperf" ∨ format = "bind") then
    match open_file fs filename with
    | none => Except.error PyError.typeError
    | some lines =>
      if format = "queryperf" then
        Except.ok (parse_queryperf lines)
      else
        parse_bind lines
  else
    Except.ok demo_queries

/-- `random.randint(a, b)`: a uniform integer in `[a, b]` inclusive,
modelled with an explicit seed (for a uniformly distributed seed the result
is uniform on `[a, b]`). -/
def randint (a b seed : Nat) : Nat :=
  a + seed % (b - a + 1)

/-- One iteration of the `while run` loop of `main` (non-run-once mode).
Returns `(run', pass_result, schedule_sleep, pause)`: the loop flag after
the iteration, the `(successful, failed)` counts when a dispatch pass ran,
the duration slept by `wait_for_schedule`, and the inter-cycle pause taken
by the final `if run:` block (`pause_sample` models the value returned by
`random.randint(1, 21)`). -/
def loop_step (config : Config) (now : Now) (resolve : Resolver)
    (shuffle : List Query → List Query) (qlist : List Query)
    (pause_sample : Nat) :
    Except PyError (Bool × Option (Nat × Nat) × Option Int × Option Nat) :=
  match scheduled config now with
  | Except.error e => Except.error e
  | Except.ok true =>
    let res := generate_queries resolve shuffle qlist
    Except.ok (true, some res, none, some pause_sample)
  | Except.ok false =>
    match wait_for_schedule config now with
    | Except.error e => Except.error e
    | Except.ok (st, w) =>
      if st then
        Except.ok (st, none, w, some pause_sample)
      else
        Except.ok (st, none, w, none)

/-! ## Helper lemmas -/

/-- Every record of the (shuffled) list is attempted, in order. -/
theorem dispatch_loop_trace (resolve : Resolver) (l : List Query) :
    (dispatch_loop resolve l).2 = l := by
  induction l with
  | nil => rfl
  | cons q rest ih => simp [dispatch_loop, ih]

/-- Each iteration increments exactly one of the two counters. -/
theorem dispatch_loop_total (resolve : Resolver) (l : List Query) :
    (dispatch_loop resolve l).1.1 + (dispatch_loop resolve l).1.2 = l.length := by
  induction l with
  | nil => rfl
  | cons q rest ih =>
    by_cases h : dns_query resolve q.query q.qtype <;>
      simp [dispatch_loop, h] <;> omega

/-- Shape of a non-raising loop iteration: with no schedule it stops
cleanly with nothing slept and no pause; with a schedule present the loop
flag stays `true` and the inter-cycle pause is taken. -/
theorem loop_step_ok_cases (config : Config) (now : Now) (resolve : Resolver)
    (shuffle : List Query → List Query) (qlist : List Query) (r : Nat)
    (res : Bool × Option (Nat × Nat) × Option Int × Option Nat)
    (h : loop_step config now resolve shuffle qlist r = Except.ok res) :
    (config.schedule = none ∧ res = (false, none, none, none)) ∨
    (config.schedule ≠ none ∧ res.1 = true ∧ res.2.2.2 = some r) := by
  obtain ⟨s0⟩ := config
  cases s0 with
  | none =>
    left
    refine ⟨rfl, ?_⟩
    have h0 : loop_step ⟨none⟩ now resolve shuffle qlist r =
        Except.ok (false, none, none, none) := rfl
    rw [h0] at h
    injection h with h2
    exact h2.symm
  | some sch =>
    right
    refine ⟨by simp, ?_⟩
    unfold loop_step at h
    cases hs : scheduled ⟨some sch⟩ now with
    | error e => rw [hs] at h; simp at h
    | ok b =>
      rw [hs] at h
      cases b with
      | true =>
        simp only [] at h
        injection h with h2
        rw [← h2]
        exact ⟨rfl, rfl⟩
      | false =>
        simp only [wait_for_schedule] at h
        cases hdw : sch.days_of_week with
        | none => rw [hdw] at h; simp at h
        | some d =>
          rw [hdw] at h
          simp only [if_true] at h
          injection h with h2
          rw [← h2]
          exact ⟨rfl, rfl⟩

/-! ## Claim C1 — schedule window membership -/

/-- A Monday 09:00–17:00 schedule used to exercise the window boundary. -/
def schC1 : Schedule := ⟨false, some ["Mon"], some 900, some 1700⟩

/-- Monday at exactly 09:00:00. -/
def nowC1 : Now := ⟨0, 9, 0, 0⟩

/-- C1 (counterexample): the claim includes both boundary times in the
window, but at a `now` exactly equal to `startTime`, with the weekday in
`daysOfWeek` and `startTime ≤ now.timeOfDay ≤ endTime`, `scheduled` returns
`false`: the code compares with strict `<` on both sides. -/
theorem scheduled_boundary_included_counterexample :
    weekday_name nowC1.weekday ∈ ["Mon"] ∧
    effective_start schC1 ≤ current_delta nowC1 ∧
    current_delta nowC1 ≤ effective_end schC1 ∧
    scheduled ⟨some schC1⟩ nowC1 = Except.ok false := by
  decide

/-- C1 (amended): for a non-continuous schedule with `days_of_week`
present, `scheduled` returns `true` iff the current weekday is listed and
`startTime < now.timeOfDay < endTime` — both boundary times excluded. -/
theorem scheduled_window_strict (sch : Schedule) (days : List String)
    (now : Now) (hc : sch.continuous = false)
    (hd : sch.days_of_week = some days) :
    scheduled ⟨some sch⟩ now = Except.ok true ↔
      (weekday_name now.weekday ∈ days ∧
       effective_start sch < current_delta now ∧
       current_delta now < effective_end sch) := by
  simp only [scheduled, hc, hd, if_false, Bool.false_eq_true]
  split_ifs with h1 h2 <;> simp_all

/-- C1 witness: Monday 10:30 inside the 09:00–17:00 window. -/
theorem scheduled_window_strict_witness :
    schC1.continuous = false ∧ schC1.days_of_week = some ["Mon"] ∧
    (scheduled ⟨some schC1⟩ ⟨0, 10, 30, 0⟩ = Except.ok true ↔
      (weekday_name (⟨0, 10, 30, 0⟩ : Now).weekday ∈ ["Mon"] ∧
       effective_start schC1 < current_delta ⟨0, 10, 30, 0⟩ ∧
       current_delta ⟨0, 10, 30, 0⟩ < effective_end schC1)) :=
  ⟨rfl, rfl, scheduled_window_strict schC1 ["Mon"] ⟨0, 10, 30, 0⟩ rfl rfl⟩

/-! ## Claim C4 — wait computation cases -/

/-- C4 (amended): `calc_wait` returns `0` when `start ≤ now ≤ end`,
`start - now` when `now < start`, and `(24h - now) + start` when
`now > end` **and** `now ≥ start` — the `now < start` case takes
precedence when the window is degenerate (`end < start`). -/
theorem calc_wait_cases (n s e : Int) :
    (s ≤ n → n ≤ e → calc_wait n s e = 0) ∧
    (n < s → calc_wait n s e = s - n) ∧
    (e < n → s ≤ n → calc_wait n s e = 86400 - n + s) := by
  refine ⟨fun h1 h2 => ?_, fun h => ?_, fun h1 h2 => ?_⟩ <;>
    unfold calc_wait <;> split_ifs <;> omega

/-- C4 (counterexample): with `now = 05:00`, `start = 10:00`,
`end = 03:00` (in seconds), `now > end` holds yet the result is
`start - now`, not `(24h - now) + start` as the claim states for every
triple. -/
theorem calc_wait_cases_counterexample :
    (10800 : Int) < 18000 ∧
    calc_wait 18000 36000 10800 = 36000 - 18000 ∧
    calc_wait 18000 36000 10800 ≠ 86400 - 18000 + 36000 := by
  decide

/-- C4 witness: all three cases at 09:00–17:00 — inside at 10:00,
before at 08:00 (spec Scenario C: wait one hour), after at 18:00
(spec Scenario D: wait fifteen hours). -/
theorem calc_wait_cases_witness :
    ((32400 : Int) ≤ 36000 ∧ (36000 : Int) ≤ 61200 ∧
      calc_wait 36000 32400 61200 = 0) ∧
    ((28800 : Int) < 32400 ∧ calc_wait 28800 32400 61200 = 32400 - 28800) ∧
    ((61200 : Int) < 64800 ∧ (32400 : Int) ≤ 64800 ∧
      calc_wait 64800 32400 61200 = 86400 - 64800 + 32400) :=
  ⟨⟨by decide, by decide,
    (calc_wait_cases 36000 32400 61200).1 (by decide) (by decide)⟩,
   ⟨by decide, (calc_wait_cases 28800 32400 61200).2.1 (by decide)⟩,
   ⟨by decide, by decide,
    (calc_wait_cases 64800 32400 61200).2.2 (by decide) (by decide)⟩⟩

/-! ## Claim C5 — missing days_of_week raises -/

/-- C5: with a schedule present, `continuous` falsy and `days_of_week`
absent, the membership test runs against `None` and `scheduled` raises a
`TypeError` instead of returning a boolean. -/
theorem scheduled_missing_days_raises (sch : Schedule) (now : Now)
    (hc : sch.continuous = false) (hd : sch.days_of_week = none) :
    scheduled ⟨some sch⟩ now = Except.error PyError.typeError := by
  simp [scheduled, hc, hd]

/-- Schedule with times but no `days_of_week` entry. -/
def schC5 : Schedule := ⟨false, none, some 900, some 1700⟩

/-- C5 witness: a concrete such schedule on a Wednesday noon. -/
theorem scheduled_missing_days_raises_witness :
    schC5.continuous = false ∧ schC5.days_of_week = none ∧
    scheduled ⟨some schC5⟩ ⟨2, 12, 0, 0⟩ = Except.error PyError.typeError :=
  ⟨rfl, rfl, scheduled_missing_days_raises schC5 ⟨2, 12, 0, 0⟩ rfl rfl⟩

/-! ## Claim C6 — continuous schedules always run -/

/-- C6: when the schedule's `continuous` entry is truthy, `scheduled`
returns `true` for every time, weekday, and remaining schedule field. -/
theorem scheduled_continuous_always_true (sch : Schedule) (now : Now)
    (hc : sch.continuous = true) :
    scheduled ⟨some sch⟩ now = Except.ok true := by
  simp [scheduled, hc]

/-- Continuous schedule whose other fields would otherwise forbid the
chosen instant. -/
def schC6 : Schedule := ⟨true, some ["Sun"], some 2200, some 2300⟩

/-- C6 witness: Thursday 03:04, outside the day list and time window. -/
theorem scheduled_continuous_always_true_witness :
    schC6.continuous = true ∧
    scheduled ⟨some schC6⟩ ⟨3, 3, 4, 0⟩ = Except.ok true :=
  ⟨rfl, scheduled_continuous_always_true schC6 ⟨3, 3, 4, 0⟩ rfl⟩

/-! ## Claim C2 — missing corpus file -/

/-- C2: with an absent (or unreadable) corpus file, `open_file` hands back
`False` and `build_queries` iterates over it, raising `TypeError` — the
4-entry demonstration corpus is *not* returned (it is reached only on a
falsy filename or unknown format). -/
theorem build_queries_missing_file_raises :
    build_queries (fun _ => none) "sample_queries" "queryperf" =
      Except.error PyError.typeError ∧
    build_queries (fun _ => none) "sample_queries" "queryperf" ≠
      Except.ok demo_queries := by
  refine ⟨rfl, ?_⟩
  decide

/-! ## Claim C3 — dispatch pass conservation -/

/-- C3: for any corpus, resolver and shuffle that permutes its input, one
dispatch pass returns `successful + failed` equal to the corpus size, and
the multiset of records attempted equals the input multiset. -/
theorem generate_queries_pass_conservation (resolve : Resolver)
    (shuffle : List Query → List Query) (qlist : List Query)
    (hperm : ∀ l, List.Perm (shuffle l) l) :
    (generate_queries resolve shuffle qlist).1 +
      (generate_queries resolve shuffle qlist).2 = qlist.length ∧
    (↑((dispatch_loop resolve (shuffle qlist)).2) : Multiset Query) =
      (↑qlist : Multiset Query) := by
  refine ⟨?_, ?_⟩
  · have h := dispatch_loop_total resolve (shuffle qlist)
    have hlen := (hperm qlist).length_eq
    simpa [generate_queries, hlen] using h
  · rw [dispatch_loop_trace]
    exact Multiset.coe_eq_coe.2 (hperm qlist)

/-- A resolver that answers only for `www.google.com`. -/
def resolverC3 : Resolver := fun q _ =>
  if q = "www.google.com" then Except.ok ["142.250.74.36"]
  else Except.error ResErr.nxdomain

/-- C3 witness: reversing is a permutation, and a pass over the 4-entry
demo corpus under `resolverC3` conserves counts and records. -/
theorem generate_queries_pass_conservation_witness :
    (∀ l : List Query, List.Perm (List.reverse l) l) ∧
    ((generate_queries resolverC3 List.reverse demo_queries).1 +
       (generate_queries resolverC3 List.reverse demo_queries).2 =
         demo_queries.length ∧
     (↑((dispatch_loop resolverC3 (List.reverse demo_queries)).2) :
         Multiset Query) = (↑demo_queries : Multiset Query)) :=
  ⟨fun l => l.reverse_perm,
   generate_queries_pass_conservation resolverC3 List.reverse demo_queries
     (fun l => l.reverse_perm)⟩

/-! ## Claim C7 — per-query failures are contained -/

/-- C7: any resolver exception makes `dns_query` return `false` (never
propagate), and regardless of resolver outcomes the dispatch loop attempts
every record of the shuffled corpus exactly once, every record landing in
exactly one of the two counters. -/
theorem dispatch_failures_contained (resolve : Resolver) :
    (∀ q qt e, resolve q qt = Except.error e →
      dns_query resolve q qt = false) ∧
    (∀ qlist : List Query,
      (dispatch_loop resolve qlist).2 = qlist ∧
      (dispatch_loop resolve qlist).1.1 + (dispatch_loop resolve qlist).1.2 =
        qlist.length) := by
  refine ⟨fun q qt e h => ?_, fun qlist =>
    ⟨dispatch_loop_trace resolve qlist, dispatch_loop_total resolve qlist⟩⟩
  simp [dns_query, h]

/-- A resolver for which every resolution times out. -/
def failResolver : Resolver := fun _ _ => Except.error ResErr.timeout

/-- C7 witness: under the always-failing resolver, a concrete query yields
`false` and a full pass over the demo corpus still attempts all 4 records. -/
theorem dispatch_failures_contained_witness :
    failResolver "www.google.com" "a" = Except.error ResErr.timeout ∧
    dns_query failResolver "www.google.com" "a" = false ∧
    (dispatch_loop failResolver demo_queries).2 = demo_queries ∧
    (dispatch_loop failResolver demo_queries).1.1 +
      (dispatch_loop failResolver demo_queries).1.2 = demo_queries.length :=
  ⟨rfl,
   (dispatch_failures_contained failResolver).1 "www.google.com" "a"
     ResErr.timeout rfl,
   ((dispatch_failures_contained failResolver).2 demo_queries).1,
   ((dispatch_failures_contained failResolver).2 demo_queries).2⟩

/-! ## Claim C8 — the computed wait ignores the weekday -/

/-- C8: two runs whose clocks agree on the time of day (any weekdays) and
whose configs agree on `start_time`/`end_time` (any `days_of_week` lists)
produce identical `wait_for_schedule` results, wait included. -/
theorem wait_ignores_weekday (s1 s2 : Schedule) (d1 d2 : List String)
    (n1 n2 : Now)
    (hst : s1.start_time = s2.start_time) (het : s1.end_time = s2.end_time)
    (hd1 : s1.days_of_week = some d1) (hd2 : s2.days_of_week = some d2)
    (hh : n1.hour = n2.hour) (hm : n1.minute = n2.minute)
    (hsec : n1.second = n2.second) :
    wait_for_schedule ⟨some s1⟩ n1 = wait_for_schedule ⟨some s2⟩ n2 := by
  simp [wait_for_schedule, hd1, hd2, effective_start, effective_end,
    now_delta, hst, het, hh, hm, hsec]

/-- Monday-only 09:00–17:00 schedule. -/
def schC8a : Schedule := ⟨false, some ["Mon"], some 900, some 1700⟩

/-- Weekend-only schedule with the same times. -/
def schC8b : Schedule := ⟨false, some ["Sat", "Sun"], some 900, some 1700⟩

/-- C8 witness: Tuesday 18:30:15 versus Friday 18:30:15 with different
day lists give the same wait. -/
theorem wait_ignores_weekday_witness :
    schC8a.start_time = schC8b.start_time ∧
    schC8a.days_of_week = some ["Mon"] ∧
    wait_for_schedule ⟨some schC8a⟩ ⟨1, 18, 30, 15⟩ =
      wait_for_schedule ⟨some schC8b⟩ ⟨4, 18, 30, 15⟩ :=
  ⟨rfl, rfl,
   wait_ignores_weekday schC8a schC8b ["Mon"] ["Sat", "Sun"]
     ⟨1, 18, 30, 15⟩ ⟨4, 18, 30, 15⟩ rfl rfl rfl rfl rfl rfl rfl⟩

/-! ## Claim C9 — no schedule means clean termination -/

/-- C9: a non-raising loop iteration clears the `run` flag exactly when the
config has no schedule; in that case nothing is dispatched, nothing is
slept and the inter-cycle pause is skipped — the only way the non-run-once
loop stops from within. -/
theorem loop_exits_iff_no_schedule (config : Config) (now : Now)
    (resolve : Resolver) (shuffle : List Query → List Query)
    (qlist : List Query) (r : Nat)
    (res : Bool × Option (Nat × Nat) × Option Int × Option Nat)
    (h : loop_step config now resolve shuffle qlist r = Except.ok res) :
    (res.1 = false ↔ config.schedule = none) ∧
    (config.schedule = none → res = (false, none, none, none)) := by
  rcases loop_step_ok_cases config now resolve shuffle qlist r res h with
    ⟨hn, hres⟩ | ⟨hn, h1, _⟩
  · subst hres
    simp [hn]
  · constructor
    · simp [h1, hn]
    · intro hcontra
      exact absurd hcontra hn

/-- C9 witness: with an empty config the iteration stops cleanly. -/
theorem loop_exits_iff_no_schedule_witness :
    loop_step ⟨none⟩ ⟨0, 12, 0, 0⟩ failResolver List.reverse demo_queries 7 =
      Except.ok (false, none, none, none) ∧
    (((false, none, none, none) :
        Bool × Option (Nat × Nat) × Option Int × Option Nat).1 = false ↔
      (⟨none⟩ : Config).schedule = none) :=
  ⟨rfl,
   (loop_exits_iff_no_schedule ⟨none⟩ ⟨0, 12, 0, 0⟩ failResolver List.reverse
     demo_queries 7 (false, none, none, none) rfl).1⟩

/-! ## Claim C10 — inter-cycle pause -/

/-- C10: the inter-cycle pause sampled by `random.randint(1, 21)` is an
integer in `[1, 21]`, every such integer is reachable and distinct seed
residues give distinct values (uniformity of the model), and a non-raising
iteration takes the pause exactly when the loop flag stays `true` — it is
skipped exactly when the loop is about to stop. -/
theorem inter_cycle_pause_spec (config : Config) (now : Now)
    (resolve : Resolver) (shuffle : List Query → List Query)
    (qlist : List Query) (seed : Nat)
    (res : Bool × Option (Nat × Nat) × Option Int × Option Nat)
    (h : loop_step config now resolve shuffle qlist (randint 1 21 seed) =
      Except.ok res) :
    (1 ≤ randint 1 21 seed ∧ randint 1 21 seed ≤ 21) ∧
    (∀ v, 1 ≤ v → v ≤ 21 → ∃ s, randint 1 21 s = v) ∧
    (∀ s t, s < 21 → t < 21 → randint 1 21 s = randint 1 21 t → s = t) ∧
    (res.2.2.2 = some (randint 1 21 seed) ↔ res.1 = true) ∧
    (res.2.2.2 = none ↔ res.1 = false) := by
  refine ⟨⟨?_, ?_⟩, fun v h1 h2 => ⟨v - 1, ?_⟩, fun s t hs ht hst => ?_, ?_, ?_⟩
  · unfold randint; omega
  · have hm : seed % 21 < 21 := Nat.mod_lt _ (by decide)
    unfold randint; omega
  · unfold randint; omega
  · unfold randint at hst; omega
  all_goals
    rcases loop_step_ok_cases config now resolve shuffle qlist
        (randint 1 21 seed) res h with ⟨_, hres⟩ | ⟨_, h1, h2⟩
  · subst hres; simp
  · simp [h1, h2]
  · subst hres; simp
  · simp [h1, h2]

/-- Continuous schedule used to drive a running iteration. -/
def schC10 : Schedule := ⟨true, none, none, none⟩

/-- C10 witness: a running iteration (continuous schedule, empty corpus)
takes the pause `randint 1 21 4 = 5`, in range. -/
theorem inter_cycle_pause_spec_witness :
    loop_step ⟨some schC10⟩ ⟨2, 8, 15, 0⟩ failResolver List.reverse []
        (randint 1 21 4) =
      Except.ok (true, some (0, 0), none, some (randint 1 21 4)) ∧
    (1 ≤ randint 1 21 4 ∧ randint 1 21 4 ≤ 21) ∧
    (((true, some (0, 0), none, some (randint 1 21 4)) :
        Bool × Option (Nat × Nat) × Option Int × Option Nat).2.2.2 =
        some (randint 1 21 4) ↔
      ((true, some (0, 0), none, some (randint 1 21 4)) :
        Bool × Option (Nat × Nat) × Option Int × Option Nat).1 = true) :=
  ⟨rfl,
   (inter_cycle_pause_spec ⟨some schC10⟩ ⟨2, 8, 15, 0⟩ failResolver
     List.reverse [] 4 (true, some (0, 0), none, some (randint 1 21 4))
     rfl).1,
   (inter_cycle_pause_spec ⟨some schC10⟩ ⟨2, 8, 15, 0⟩ failResolver
     List.reverse [] 4 (true, some (0, 0), none, some (randint 1 21 4))
     rfl).2.2.2.1⟩

end DnsTrafficGenerator
